import Mathlib

/-!
Verification of the MVPMoral ML-training pipeline (ml-training/collect_training_data.py,
ml-training/train_naive_bayes.py, ml-training/train_bert.py) against its specification.

The Python scripts are shallowly embedded: JSON objects become structures whose fields
are `Option`-valued (a missing key, or a pandas NaN cell, is `none`), `dict.get(k, d)`
becomes `Option.getD`, dataframes become lists of row records, and the scripts' control
flow becomes total Lean functions returning explicit result values.
-/

namespace MVPMoral

/-! ## Record collector (collect_training_data.py) -/

/-- The `mlPrediction` sub-object of a vulnerability entry in `data/history.json`.
Only the `isRealThreat` key is read by the collector. -/
structure MlPrediction where
  isRealThreat : Option Bool
  deriving DecidableEq

/-- The `original` sub-object of a vulnerability entry: the raw finding fields.
Every field is optional, mirroring JSON; `collect_from_history` applies the defaults. -/
structure Original where
  name : Option String
  description : Option String
  severity : Option String
  cve : Option String
  cwe : Option String
  file : Option String
  line : Option String
  message : Option String
  deriving DecidableEq

/-- One vulnerability entry of an analysis in `data/history.json`. -/
structure Vuln where
  original : Option Original
  mlPrediction : Option MlPrediction
  deriving DecidableEq

/-- The `result` sub-object of an analysis entry. -/
structure AnalysisResult where
  vulnerabilities : Option (List Vuln)
  deriving DecidableEq

/-- One analysis entry of the `data/history.json` array. -/
structure Analysis where
  result : Option AnalysisResult
  deriving DecidableEq

/-- One entry of `data/feedback.json`: a human verdict on a named finding.
The exact schema is unspecified upstream; the collector loads the array and
never inspects its entries, so only a representative shape is needed. -/
structure Feedback where
  vulnName : String
  isRealThreat : Bool
  deriving DecidableEq

/-- One row of `data/training_data.csv` as written by `create_training_csv`. -/
structure TrainRow where
  name : String
  description : String
  severity : String
  cve : String
  cwe : String
  file : String
  line : String
  message : String
  is_real_threat : Nat
  deriving DecidableEq

/-- An `original` object with no keys, the default of `vuln.get('original', {})`. -/
def emptyOriginal : Original :=
  ⟨none, none, none, none, none, none, none, none⟩

/-- The per-vulnerability record built inside `collect_from_history` (lines 47-65):
`is_real_threat = ml_pred.get('isRealThreat', True)` — note the human feedback is
not consulted here, only the prior prediction with default `True`. -/
def vulnToRow (v : Vuln) : TrainRow :=
  let o := v.original.getD emptyOriginal
  let mp := v.mlPrediction.getD ⟨none⟩
  let isReal := mp.isRealThreat.getD true
  { name := o.name.getD ""
    description := o.description.getD ""
    severity := o.severity.getD "MEDIUM"
    cve := o.cve.getD ""
    cwe := o.cwe.getD ""
    file := o.file.getD ""
    line := o.line.getD ""
    message := o.message.getD ""
    is_real_threat := if isReal then 1 else 0 }

/-- `collect_from_history`: a missing `data/history.json` yields `[]`; otherwise every
analysis entry's `result.vulnerabilities` list (defaulting to `[]` at each level)
is flattened through `vulnToRow`. The argument is `none` when the file is absent. -/
def collect_from_history (history : Option (List Analysis)) : List TrainRow :=
  match history with
  | none => []
  | some hs =>
      hs.flatMap fun a =>
        (((a.result.getD ⟨none⟩).vulnerabilities).getD []).map vulnToRow

/-- `collect_from_feedback`: a missing `data/feedback.json` yields `[]`; otherwise the
parsed array is returned unchanged. -/
def collect_from_feedback (feedback : Option (List Feedback)) : List Feedback :=
  feedback.getD []

/-- `create_training_csv` (lines 69-99): `all_data = history_data`; the
`if feedback_data:` branch is literally `pass` in the source, embedded here as an
`if` whose branches coincide; the CSV is written only when `all_data` is non-empty
(`none` models "no file written"). -/
def create_training_csv (history : Option (List Analysis))
    (feedback : Option (List Feedback)) : Option (List TrainRow) :=
  let history_data := collect_from_history history
  let feedback_data := collect_from_feedback feedback
  let all_data := history_data
  let all_data := if feedback_data.isEmpty then all_data else all_data
  if all_data.isEmpty then none else some all_data

/-! ## Feature builder (train_naive_bayes.py, extract_features) -/

/-- One row of the pandas dataframe loaded from `data/training_data.csv`.
A cell is `none` when it is NaN (pandas turns empty CSV cells into NaN).
The last five columns are the derived ones added by `extract_features` /
`prepare_data`; on freshly loaded data they are `none`. -/
structure DfRow where
  name : Option String
  description : Option String
  severity : Option String
  cve : Option String
  cwe : Option String
  file : Option String
  line : Option String
  message : Option String
  is_real_threat : Option Nat
  text : Option String
  has_cve : Option Nat
  has_cwe : Option Nat
  severity_numeric : Option Nat
  is_test_file : Option Nat
  deriving DecidableEq

/-- A dataframe row with every cell NaN and no derived columns. -/
def blankDfRow : DfRow :=
  ⟨none, none, none, none, none, none, none, none, none, none, none, none, none, none⟩

/-- The `severity_map` dictionary of `extract_features` (lines 43-49). -/
def severity_map : List (String × Nat) :=
  [("CRITICAL", 4), ("HIGH", 3), ("MEDIUM", 2), ("LOW", 1), ("INFO", 0)]

/-- Dictionary lookup used by `df['severity'].map(severity_map)`. -/
def mapSeverity (s : String) : Option Nat :=
  severity_map.lookup s

/-- `df['severity'].map(severity_map).fillna(2)` on one cell: a missing severity or a
severity outside the map becomes NaN, then `fillna` turns NaN into 2. -/
def severityNumeric (s : Option String) : Nat :=
  (s.bind mapSeverity).getD 2

/-- Whether `sub` occurs at the start of `l`. -/
def startsList : List Char → List Char → Bool
  | [], _ => true
  | _ :: _, [] => false
  | a :: as, b :: bs => a == b && startsList as bs

/-- Whether `sub` occurs contiguously anywhere in the second list. -/
def hasSubList (sub : List Char) : List Char → Bool
  | [] => sub.isEmpty
  | b :: bs => startsList sub (b :: bs) || hasSubList sub bs

/-- Substring test on strings, the semantics of Python's `sub in hay`. -/
def strContainsSub (hay sub : String) : Bool :=
  hasSubList sub.data hay.data

/-- ASCII lowercasing, character by character: the effect of Python's
`str.lower()` and of pandas `case=False` on the ASCII literals compared here. -/
def pyLower (s : String) : String :=
  String.mk (s.data.map Char.toLower)

/-- `df['file'].str.contains('test|spec|example', case=False, na=False)` on one cell:
NaN yields `False` (hence 0); otherwise a case-insensitive search for any of the
three alternatives of the regex, which are plain literals. -/
def isTestFile (file : Option String) : Nat :=
  match file with
  | none => 0
  | some s =>
      let l := pyLower s
      if strContainsSub l "test" || strContainsSub l "spec" || strContainsSub l "example"
      then 1 else 0

/-- The per-row effect of `extract_features` (lines 29-55): the combined `text`
column is `name + ' ' + description + ' ' + message` with NaN as '' and no
truncation; `has_cve` / `has_cwe` are `notna()` flags (1 for any present value,
including the empty string, 0 only for NaN); `severity_numeric` and
`is_test_file` as modelled above. -/
def featRow (r : DfRow) : DfRow :=
  { r with
    text := some (r.name.getD "" ++ " " ++ r.description.getD "" ++ " " ++ r.message.getD "")
    has_cve := some (if r.cve.isSome then 1 else 0)
    has_cwe := some (if r.cwe.isSome then 1 else 0)
    severity_numeric := some (severityNumeric r.severity)
    is_test_file := some (isTestFile r.file) }

/-- `extract_features` as a value-level function on the dataframe. In the source the
five column assignments `df[c] = ...` mutate the caller's dataframe object in place
and the same object is returned, so the caller's dataframe after the call equals
this function's result, not its argument. -/
def extract_features (df : List DfRow) : List DfRow :=
  df.map featRow

/-! ## BERT data preparation (train_bert.py, prepare_data) -/

/-- Python string slicing `s[:n]`. -/
def pyStrTake (s : String) (n : Nat) : String :=
  String.mk (s.data.take n)

/-- `prepare_data` (lines 34-46): joins `name`, `description`, `message` with the
`' [SEP] '` separator (NaN as ''), then truncates the joined text to 500
characters via `df['text'].str[:500]`. -/
def prepare_data (df : List DfRow) : List DfRow :=
  let df := df.map fun r =>
    { r with
      text := some (r.name.getD "" ++ " [SEP] " ++ r.description.getD "" ++ " [SEP] "
        ++ r.message.getD "") }
  df.map fun r => { r with text := some (pyStrTake (r.text.getD "") 500) }

/-! ## Pipeline control flow (train_naive_bayes.py main, train_bert.py train_bert) -/

/-- The observable outcome of one run of a training script: whether the low-data
warning was printed, whether control reached the model-fitting stage, which
artifact paths were written by a run that reached training and completed its
save, and whether the missing-input diagnostic was printed. Every run is a value
of this type: the embedded scripts are total, i.e. they terminate without an
unhandled fault. -/
structure RunResult where
  lowDataWarning : Bool
  reachedTraining : Bool
  filesWritten : List String
  missingInputMsg : Bool
  deriving DecidableEq

/-- Path of the pickled classifier written by `train_model` (line 109). -/
def model_file : String := "models/naive_bayes.pkl"

/-- Path of the pickled vectorizer written by `train_model` (line 110). -/
def vectorizer_file : String := "models/vectorizer.pkl"

/-- The artifact writes a completed classical save performs, in program order:
`pickle.dump(model, ...)` first, then `pickle.dump(vectorizer, ...)`
(train_naive_bayes.py lines 112-116, two separate sequential `with open` blocks). -/
def save_writes : List String := [model_file, vectorizer_file]

/-- Disk state when the save fails after completing exactly `k` of its writes:
the first `k` paths of `save_writes` exist, the rest do not. `k = save_writes.length`
is the successful run. -/
def filesAfterSaveSteps (k : Nat) : List String :=
  save_writes.take k

/-- The checkpoint directory written by the transformer backend. -/
def bert_model_dir : String := "models/bert_model"

/-- Control flow of `main` in train_naive_bayes.py (lines 123-155): a missing
`data/training_data.csv` (`csv = none`) prints the diagnostic and returns before
touching `models/`; fewer than 50 rows prints the low-data warning and proceeds
only when the operator answers `s` (`input().lower() != 's'` returns); otherwise
training runs and the save writes both pickle files. `confirm` is the operator's
answer to the prompt (read only when the prompt is shown). -/
def nbMain (csv : Option (List DfRow)) (confirm : String) : RunResult :=
  match csv with
  | none => ⟨false, false, [], true⟩
  | some df =>
      if df.length < 50 then
        if pyLower confirm = "s" then ⟨true, true, save_writes, false⟩
        else ⟨true, false, [], false⟩
      else ⟨false, true, save_writes, false⟩

/-- Control flow of `train_bert` in train_bert.py (lines 49-125): same gate with
soft threshold 100 and the checkpoint directory as the artifact. -/
def bertMain (csv : Option (List DfRow)) (confirm : String) : RunResult :=
  match csv with
  | none => ⟨false, false, [], true⟩
  | some df =>
      if df.length < 100 then
        if pyLower confirm = "s" then ⟨true, true, [bert_model_dir], false⟩
        else ⟨true, false, [], false⟩
      else ⟨false, true, [bert_model_dir], false⟩

/-! ## Dataset splitter -/

/-- The arguments both scripts pass to the splitter:
`train_test_split(..., test_size=0.2, random_state=42, stratify=label)`
(train_naive_bayes.py lines 86-88, train_bert.py lines 58-60). -/
structure SplitConfig where
  test_size : ℚ
  random_state : Nat
  stratifyByLabel : Bool
  deriving DecidableEq

/-- The classical backend's split call. -/
def nb_split_config : SplitConfig := ⟨1/5, 42, true⟩

/-- The transformer backend's split call. -/
def bert_split_config : SplitConfig := ⟨1/5, 42, true⟩

/-- Modelled from the spec: `sklearn.model_selection.train_test_split` is an external
library function, not part of this repository; the spec requires a stratified,
seed-reproducible partition ("Must stratify by label so that the holdout's class
ratio approximates the full dataset's class ratio"; "re-invoking `split` with the
same seed on the same dataset yields an identical partition"). The seeded random
permutation of each class is modelled as a list rotation by the seed — any fixed
permutation gives the same class counts — and with `test_size = 1/5` each class
contributes `⌈n/5⌉` rows to the holdout. -/
def stratifiedSplit {α : Type} (seed : Nat) (rows : List (α × Bool)) :
    List (α × Bool) × List (α × Bool) :=
  let pos := rows.filter fun r => r.2
  let neg := rows.filter fun r => !r.2
  let posSh := pos.rotate seed
  let negSh := neg.rotate seed
  let tPos := (pos.length + 4) / 5
  let tNeg := (neg.length + 4) / 5
  (posSh.drop tPos ++ negSh.drop tNeg, posSh.take tPos ++ negSh.take tNeg)

/-! ## Concrete inputs used in counterexamples and evaluations -/

/-- A history vulnerability whose prior prediction marks it a real threat. -/
def c1Vuln : Vuln :=
  { original := some { emptyOriginal with name := some "SQL Injection" },
    mlPrediction := some ⟨some true⟩ }

/-- A `data/history.json` with a single analysis holding `c1Vuln`. -/
def c1History : Option (List Analysis) :=
  some [⟨some ⟨some [c1Vuln]⟩⟩]

/-- A dataframe row whose `name` cell alone is 600 characters long, so the combined
text of `extract_features` is 602 characters. -/
def longDfRow : DfRow :=
  { blankDfRow with name := some (String.mk (List.replicate 600 'a')) }

/-- Forgets the five derived columns of a dataframe row, keeping the columns that
were loaded from the CSV. -/
def stripDerived (r : DfRow) : DfRow :=
  { r with text := none, has_cve := none, has_cwe := none,
           severity_numeric := none, is_test_file := none }

/-! ## Helper lemmas -/

/-- Column-wise description of `extract_features`: projecting a column out of the
feature table is projecting the per-row formula over the input rows. -/
theorem map_featRow_proj {β : Type} (f g : DfRow → β)
    (h : ∀ r, f (featRow r) = g r) (df : List DfRow) :
    (extract_features df).map f = df.map g := by
  induction df with
  | nil => rfl
  | cons r t ih =>
    simp only [extract_features, List.map_cons] at ih ⊢
    rw [h r, ih]

/-- Python slicing `s[:n]` yields a string of at most `n` characters. -/
theorem pyStrTake_length_le (s : String) (n : Nat) : (pyStrTake s n).length ≤ n := by
  have h : (pyStrTake s n).length = (s.data.take n).length := rfl
  rw [h, List.length_take]
  exact Nat.min_le_left _ _

/-! ## Claim theorems -/

/-- C1: evaluation of the collector at the failing input. The history holds one
vulnerability whose prior prediction says "real threat"; the feedback file holds a
human verdict "not a real threat" for that same finding. The emitted label is 1,
and the run's output is identical to a run with no feedback file at all: the
collector derives the label from `mlPrediction.isRealThreat` alone and never
consults feedback, contradicting the claimed feedback-over-prediction precedence
(and the source's own comment above the assignment). -/
theorem feedback_ignored_in_labeling :
    (create_training_csv c1History (some [⟨"SQL Injection", false⟩])).map
        (fun rows => rows.map fun r => r.is_real_threat) = some [1]
    ∧ create_training_csv c1History (some [⟨"SQL Injection", false⟩])
        = create_training_csv c1History none :=
  ⟨rfl, rfl⟩

/-- C10: the written training CSV depends only on the history input; the feedback
file (absent, empty, or arbitrary) never changes the output, because the
feedback-merge branch of `create_training_csv` is a no-op. -/
theorem training_csv_ignores_feedback :
    ∀ (history : Option (List Analysis)) (f₁ f₂ : Option (List Feedback)),
      create_training_csv history f₁ = create_training_csv history f₂ := by
  intro h f₁ f₂
  simp only [create_training_csv, ite_self]

/-- C4 counterexample: a row whose `cve` cell is the empty string (a present,
non-null value) gets `has_cve = 1` from `extract_features`, because the source
tests `notna()`, not non-emptiness; the claim says an empty-string `cve` yields 0. -/
theorem has_cve_empty_string_counterexample :
    ({ blankDfRow with cve := some "" } : DfRow).cve = some ""
    ∧ (extract_features [{ blankDfRow with cve := some "" }]).map (fun r => r.has_cve)
        = [some 1] := by
  exact ⟨rfl, rfl⟩

/-- C4 amended: `has_cve` is 1 exactly when the `cve` cell is present (non-null)
and 0 when it is missing, and likewise `has_cwe` for `cwe`; an empty-string cell
counts as present and yields 1, not 0. -/
theorem has_cve_has_cwe_amended :
    ∀ df : List DfRow,
      (extract_features df).map (fun r => r.has_cve)
          = df.map (fun r => some (if r.cve.isSome then 1 else 0))
      ∧ (extract_features df).map (fun r => r.has_cwe)
          = df.map (fun r => some (if r.cwe.isSome then 1 else 0)) := by
  intro df
  exact ⟨map_featRow_proj _ _ (fun r => rfl) df, map_featRow_proj _ _ (fun r => rfl) df⟩

/-- C5: `severity_numeric` is the ordinal map CRITICAL=4, HIGH=3, MEDIUM=2, LOW=1,
INFO=0 applied to the `severity` cell, any missing or unmapped severity maps to 2,
and every value lies in {0,1,2,3,4}. -/
theorem severity_numeric_spec :
    (∀ df : List DfRow, (extract_features df).map (fun r => r.severity_numeric)
        = df.map (fun r => some (severityNumeric r.severity)))
    ∧ severityNumeric (some "CRITICAL") = 4
    ∧ severityNumeric (some "HIGH") = 3
    ∧ severityNumeric (some "MEDIUM") = 2
    ∧ severityNumeric (some "LOW") = 1
    ∧ severityNumeric (some "INFO") = 0
    ∧ severityNumeric none = 2
    ∧ (∀ s : String, mapSeverity s = none → severityNumeric (some s) = 2)
    ∧ (∀ o : Option String, severityNumeric o ∈ ([0, 1, 2, 3, 4] : List Nat)) := by
  refine ⟨fun df => map_featRow_proj _ _ (fun r => rfl) df,
    rfl, rfl, rfl, rfl, rfl, rfl, ?_, ?_⟩
  · intro s h
    simp [severityNumeric, h]
  · intro o
    rcases o with _ | s
    · decide
    · simp only [severityNumeric, Option.some_bind, mapSeverity, severity_map,
        List.lookup]
      repeat' split
      all_goals decide

/-- C5 witness: the unmapped severity string "WARNING" falls back to 2. -/
theorem severity_numeric_spec_witness :
    severityNumeric (some "WARNING") = 2 :=
  severity_numeric_spec.2.2.2.2.2.2.2.1 "WARNING" (by decide)

/-- C8: with `data/training_data.csv` absent, both training scripts print the
missing-input diagnostic, write nothing under `models/`, and return normally
(the embedded runs are total values, not faults), whatever the operator input. -/
theorem missing_input_behavior :
    ∀ confirm : String,
      (nbMain none confirm).missingInputMsg = true
      ∧ (nbMain none confirm).filesWritten = []
      ∧ (nbMain none confirm).reachedTraining = false
      ∧ (bertMain none confirm).missingInputMsg = true
      ∧ (bertMain none confirm).filesWritten = []
      ∧ (bertMain none confirm).reachedTraining = false :=
  fun _ => ⟨rfl, rfl, rfl, rfl, rfl, rfl⟩

/-- C2 counterexample: the classical save is two sequential writes, classifier
first; the disk state after the first write completes and before the second
(failure point `k = 1`) holds the classifier without its vectorizer, the
load-able-but-mismatched pair the claim rules out. -/
theorem save_not_atomic_counterexample :
    model_file ∈ filesAfterSaveSteps 1 ∧ vectorizer_file ∉ filesAfterSaveSteps 1 := by
  decide

/-- C2 amended: the save is not atomic; it writes the classifier and then the
vectorizer in sequence, so a completed save leaves both files, a mid-save failure
can leave the classifier without the vectorizer, but never the vectorizer without
the classifier. -/
theorem save_pair_order_amended :
    filesAfterSaveSteps save_writes.length = save_writes
    ∧ (∀ k : Nat, vectorizer_file ∈ filesAfterSaveSteps k →
        model_file ∈ filesAfterSaveSteps k) := by
  constructor
  · exact List.take_length _
  · intro k hk
    match k with
    | 0 => exact absurd hk (by decide)
    | 1 => exact absurd hk (by decide)
    | n + 2 =>
      simp [filesAfterSaveSteps, save_writes, List.take_succ_cons]

/-- C2 amended witness: after a completed save (both writes done) the vectorizer
is on disk, hence so is the classifier. -/
theorem save_pair_order_amended_witness :
    model_file ∈ filesAfterSaveSteps 2 :=
  save_pair_order_amended.2 2 (by decide)

set_option maxRecDepth 4096 in
/-- C3 counterexample: a record whose fields join to a 602-character combined text
keeps all 602 characters in the classical backend's `text` column —
`extract_features` applies no truncation at all, so the 500-character bound
claimed for the shallow model does not hold. -/
theorem nb_text_not_truncated_counterexample :
    (extract_features [longDfRow]).map (fun r => (r.text.getD "").length) = [602]
    ∧ ¬ (602 ≤ 500) :=
  ⟨rfl, by decide⟩

/-- C3 amended: the classical backend's combined `text` column is the full,
untruncated join of `name`, `description`, `message`; only the transformer
backend truncates, capping the joined text at 500 characters before
tokenization. Both builders are total functions: oversized input is never
rejected with an error. -/
theorem text_truncation_amended :
    (∀ df : List DfRow, (extract_features df).map (fun r => r.text)
        = df.map (fun r => some (r.name.getD "" ++ " " ++ r.description.getD ""
            ++ " " ++ r.message.getD "")))
    ∧ (∀ df : List DfRow, ∀ r ∈ prepare_data df, (r.text.getD "").length ≤ 500) := by
  constructor
  · intro df
    exact map_featRow_proj _ _ (fun r => rfl) df
  · intro df r hr
    simp only [prepare_data, List.map_map, List.mem_map] at hr
    obtain ⟨r₁, _, rfl⟩ := hr
    exact pyStrTake_length_le _ 500

/-- C3 amended witness: the transformer text of a row with all cells missing is
within the 500-character bound. -/
theorem text_truncation_amended_witness :
    ((({ blankDfRow with text := some (pyStrTake " [SEP]  [SEP] " 500) } : DfRow).text.getD
        "").length ≤ 500) :=
  text_truncation_amended.2 [blankDfRow]
    { blankDfRow with text := some (pyStrTake " [SEP]  [SEP] " 500) } (by decide)

/-- C9 counterexample: `extract_features` does mutate its input. In pandas each
column assignment `df[c] = ...` updates the caller's dataframe object in place
and the function returns that same object, so after `df2 = extract_features(df)`
the caller's `df` equals the returned table, which differs from the dataframe
passed in: the call changes the caller's dataframe. -/
theorem extract_features_mutates_input :
    extract_features [blankDfRow] ≠ [blankDfRow] := by
  decide

/-- C9 amended: the feature builder is deterministic — identical input dataframes
give identical feature tables — it preserves every original column, and it is
idempotent; but it is not side-effect-free: it adds the five derived columns to
the caller's dataframe in place. -/
theorem extract_features_pure_amended :
    (∀ df₁ df₂ : List DfRow, df₁ = df₂ → extract_features df₁ = extract_features df₂)
    ∧ (∀ df : List DfRow, (extract_features df).map stripDerived = df.map stripDerived)
    ∧ (∀ df : List DfRow, extract_features (extract_features df) = extract_features df) := by
  refine ⟨fun _ _ h => by rw [h], ?_, ?_⟩
  · intro df
    exact map_featRow_proj _ _ (fun r => rfl) df
  · intro df
    induction df with
    | nil => rfl
    | cons r t ih =>
      simp only [extract_features, List.map_cons] at ih ⊢
      rw [ih]
      rfl

/-- C9 amended witness: determinism applied at a concrete one-row dataframe. -/
theorem extract_features_pure_amended_witness :
    extract_features [blankDfRow] = extract_features [blankDfRow] :=
  extract_features_pure_amended.1 [blankDfRow] [blankDfRow] rfl

/-- C7: below the soft threshold (50 rows classical, 100 rows transformer) the
run always prints the low-data warning — never proceeding silently — and control
reaches model fitting exactly when the operator answers `s`; on any other answer
the run halts with no training and no artifact writes. -/
theorem low_data_gate :
    ∀ (df : List DfRow) (confirm : String),
      ((nbMain (some df) confirm).lowDataWarning = decide (df.length < 50))
      ∧ (df.length < 50 →
          (((nbMain (some df) confirm).reachedTraining = true) ↔ pyLower confirm = "s"))
      ∧ (df.length < 50 → pyLower confirm ≠ "s" →
          (nbMain (some df) confirm).reachedTraining = false
          ∧ (nbMain (some df) confirm).filesWritten = [])
      ∧ ((bertMain (some df) confirm).lowDataWarning = decide (df.length < 100))
      ∧ (df.length < 100 →
          (((bertMain (some df) confirm).reachedTraining = true) ↔ pyLower confirm = "s"))
      ∧ (df.length < 100 → pyLower confirm ≠ "s" →
          (bertMain (some df) confirm).reachedTraining = false
          ∧ (bertMain (some df) confirm).filesWritten = []) := by
  intro df confirm
  simp only [nbMain, bertMain]
  refine ⟨?_, ?_, ?_, ?_, ?_, ?_⟩ <;> split_ifs <;> simp_all

/-- C7 witness: an empty dataframe is below both thresholds; answering `n` halts
the classical run with no training and no artifact writes. -/
theorem low_data_gate_witness :
    (nbMain (some ([] : List DfRow)) "n").reachedTraining = false
    ∧ (nbMain (some ([] : List DfRow)) "n").filesWritten = [] :=
  (low_data_gate [] "n").2.2.1 (by decide) (by decide)

/-- Helper: the holdout of `stratifiedSplit` holds exactly `⌈n/5⌉` of the `n`
positive-label rows. -/
theorem holdout_true_count {α : Type} (seed : Nat) (rows : List (α × Bool)) :
    ((stratifiedSplit seed rows).2.filter fun r => r.2).length
      = ((rows.filter fun r => r.2).length + 4) / 5 := by
  classical
  simp only [stratifiedSplit]
  set pos := rows.filter (fun r => r.2) with hpos
  set neg := rows.filter (fun r => !r.2) with hneg
  rw [List.filter_append]
  have hA : ((pos.rotate seed).take ((pos.length + 4) / 5)).filter (fun r => r.2)
      = (pos.rotate seed).take ((pos.length + 4) / 5) := by
    rw [List.filter_eq_self]
    intro a ha
    have ha' : a ∈ pos := (List.mem_rotate).mp (List.take_subset _ _ ha)
    exact (List.mem_filter.mp ha').2
  have hB : ((neg.rotate seed).take ((neg.length + 4) / 5)).filter (fun r => r.2)
      = [] := by
    rw [List.filter_eq_nil_iff]
    intro a ha
    have ha' : a ∈ neg := (List.mem_rotate).mp (List.take_subset _ _ ha)
    have hf := (List.mem_filter.mp ha').2
    simp only [Bool.not_eq_true'] at hf
    simp [hf]
  rw [hA, hB, List.append_nil, List.length_take, List.length_rotate]
  omega

/-- Helper: the holdout of `stratifiedSplit` holds exactly `⌈n/5⌉` of the `n`
negative-label rows. -/
theorem holdout_false_count {α : Type} (seed : Nat) (rows : List (α × Bool)) :
    ((stratifiedSplit seed rows).2.filter fun r => !r.2).length
      = ((rows.filter fun r => !r.2).length + 4) / 5 := by
  classical
  simp only [stratifiedSplit]
  set pos := rows.filter (fun r => r.2) with hpos
  set neg := rows.filter (fun r => !r.2) with hneg
  rw [List.filter_append]
  have hA : ((pos.rotate seed).take ((pos.length + 4) / 5)).filter (fun r => !r.2)
      = [] := by
    rw [List.filter_eq_nil_iff]
    intro a ha
    have ha' : a ∈ pos := (List.mem_rotate).mp (List.take_subset _ _ ha)
    have hf := (List.mem_filter.mp ha').2
    simp [hf]
  have hB : ((neg.rotate seed).take ((neg.length + 4) / 5)).filter (fun r => !r.2)
      = (neg.rotate seed).take ((neg.length + 4) / 5) := by
    rw [List.filter_eq_self]
    intro a ha
    have ha' : a ∈ neg := (List.mem_rotate).mp (List.take_subset _ _ ha)
    exact (List.mem_filter.mp ha').2
  rw [hA, hB, List.nil_append, List.length_take, List.length_rotate]
  omega

/-- Helper: train and holdout together are a permutation of the input rows. -/
theorem split_is_partition {α : Type} (seed : Nat) (rows : List (α × Bool)) :
    ((stratifiedSplit seed rows).1 ++ (stratifiedSplit seed rows).2).Perm rows := by
  simp only [stratifiedSplit]
  set pos := rows.filter (fun r => r.2) with hpos
  set neg := rows.filter (fun r => !r.2) with hneg
  set tP := (pos.length + 4) / 5
  set tN := (neg.length + 4) / 5
  set P := pos.rotate seed with hP
  set N := neg.rotate seed with hN
  have step1 : ((P.drop tP ++ N.drop tN) ++ (P.take tP ++ N.take tN)).Perm
      ((P.take tP ++ P.drop tP) ++ (N.take tN ++ N.drop tN)) := by
    refine List.perm_append_comm.trans ?_
    rw [List.append_assoc, List.append_assoc]
    refine List.Perm.append_left _ ?_
    rw [← List.append_assoc, ← List.append_assoc]
    exact List.Perm.append_right _ List.perm_append_comm
  have step2 : (P.take tP ++ P.drop tP) ++ (N.take tN ++ N.drop tN) = P ++ N := by
    rw [List.take_append_drop, List.take_append_drop]
  have step3 : (P ++ N).Perm (pos ++ neg) :=
    (List.rotate_perm pos seed).append (List.rotate_perm neg seed)
  have step4 : (pos ++ neg).Perm rows := by
    rw [hpos, hneg]
    exact List.filter_append_perm _ rows
  refine step1.trans ?_
  rw [step2]
  exact step3.trans step4

/-- C6: both backends call the splitter with test fraction 0.2, the fixed seed 42
and label stratification; the split is a deterministic function of (seed, dataset)
— equal inputs give the identical partition — the train and holdout parts
partition the dataset, and each label class contributes exactly `⌈n/5⌉` of its `n`
rows to the holdout (so, up to rounding of one row per class, the holdout's class
ratio equals the full dataset's). -/
theorem dataset_split_spec :
    (∀ (α : Type) (rows rows' : List (α × Bool)) (s s' : Nat),
        rows = rows' → s = s' → stratifiedSplit s rows = stratifiedSplit s' rows')
    ∧ (∀ (α : Type) (s : Nat) (rows : List (α × Bool)),
        ((stratifiedSplit s rows).2.filter fun r => r.2).length
            = ((rows.filter fun r => r.2).length + 4) / 5
        ∧ ((stratifiedSplit s rows).2.filter fun r => !r.2).length
            = ((rows.filter fun r => !r.2).length + 4) / 5
        ∧ (rows.filter fun r => r.2).length
            ≤ 5 * ((stratifiedSplit s rows).2.filter fun r => r.2).length
        ∧ 5 * ((stratifiedSplit s rows).2.filter fun r => r.2).length
            < (rows.filter fun r => r.2).length + 5
        ∧ ((stratifiedSplit s rows).1 ++ (stratifiedSplit s rows).2).Perm rows)
    ∧ nb_split_config.test_size = 1 / 5
    ∧ bert_split_config = nb_split_config
    ∧ nb_split_config.random_state = 42
    ∧ nb_split_config.stratifyByLabel = true := by
  refine ⟨fun α rows rows' s s' h hs => by rw [h, hs], ?_, rfl, rfl, rfl, rfl⟩
  intro α s rows
  have ht := holdout_true_count s rows
  have hf := holdout_false_count s rows
  refine ⟨ht, hf, ?_, ?_, split_is_partition s rows⟩
  · omega
  · omega

/-- C6 witness: determinism applied at a concrete seed and one-row dataset. -/
theorem dataset_split_spec_witness :
    stratifiedSplit 42 [((0 : Nat), true)] = stratifiedSplit 42 [((0 : Nat), true)] :=
  dataset_split_spec.1 Nat [(0, true)] [(0, true)] 42 42 rfl rfl

end MVPMoral
